import Mathlib

/-!
Verification development for the hybrid SQL RAG engine
(`sql_rag_hybrid.py` and the chat handler of `app_hybrid.py`).

The Python source is shallowly embedded: pure text manipulation becomes
Lean functions on `String` / `List Char`; the external services
(embedding model, generation API, relational store) become explicit
functional parameters or oracles; the vector store is a list of
knowledge items.  Machine floats of the similarity metric are abstracted
to `Nat`-valued distances, which preserves everything the ordering
claims depend on.
-/

namespace HybridSqlRag

/-! ### Data model -/

/-- An entry of `DATABASE_KNOWLEDGE` (`knowledge_base.py`): a unique id
together with the free-text content that gets embedded.  Metadata is
irrelevant to every property proved here and is omitted. -/
structure KnowledgeItem where
  id : String
  content : String
deriving DecidableEq, Repr

/-- One element of the list returned by `_search_knowledge`
(`sql_rag_hybrid.py:400-408`): the Python code returns dicts holding
the document content and the reported distance (metadata dropped). -/
structure RetrievedItem where
  content : String
  distance : Nat
deriving DecidableEq, Repr

/-- The ChromaDB collection held by the engine: the sequence of
knowledge items in insertion order. -/
structure VectorStore where
  items : List KnowledgeItem
deriving DecidableEq, Repr

/-- The dict returned by `execute_sql` (`sql_rag_hybrid.py:487-491`):
column names, rows (each row rendered as a list of cell strings; the
cell representation is never inspected by any property here) and the
row count. -/
structure ResultSet where
  columns : List String
  rows : List (List String)
  row_count : Nat
deriving DecidableEq, Repr

/-! ### Python string primitives used by the source -/

/-- Python `str.strip()` whitespace class: space, tab, newline,
carriage return, vertical tab, form feed. -/
def isPySpace (c : Char) : Bool :=
  c == ' ' || c == '\t' || c == '\n' || c == '\r' ||
  c == Char.ofNat 11 || c == Char.ofNat 12

/-- Python `s.strip()`: drop leading and trailing whitespace. -/
def pyStrip (s : String) : String :=
  String.mk (((s.data.dropWhile isPySpace).reverse.dropWhile isPySpace).reverse)

/-- Removal step of Python `s.replace(pat, "")` over character lists,
with explicit fuel (the list length) to make the recursion structural:
non-overlapping occurrences of `pat` are removed left to right. -/
def removeAllAux (pat : List Char) : Nat → List Char → List Char
  | 0, l => l
  | _ + 1, [] => []
  | n + 1, c :: rest =>
    if pat ≠ [] ∧ pat.isPrefixOf (c :: rest) then
      removeAllAux pat n ((c :: rest).drop pat.length)
    else
      c :: removeAllAux pat n rest

/-- Python `s.replace(pat, "")`. -/
def pyRemoveAll (pat s : String) : String :=
  String.mk (removeAllAux pat.data s.data.length s.data)

/-- Python `s.startswith(pat)`. -/
def pyStartsWith (pat s : String) : Bool :=
  pat.data.isPrefixOf s.data

/-- Python `sep.join(parts)`. -/
def joinSep (sep : String) : List String → String
  | [] => ""
  | [x] => x
  | x :: y :: xs => x ++ sep ++ joinSep sep (y :: xs)

/-- Decidable substring occurrence over the underlying character
lists (used only in statements, never by the embedded code). -/
def containsSub (s pat : String) : Bool :=
  s.data.tails.any (fun t => pat.data.isPrefixOf t)

/-! ### Knowledge store: load and search -/

/-- Outcome of `_load_knowledge_base` (`sql_rag_hybrid.py:315-373`):
the store afterwards, how many documents were embedded during this
call (`collection.add` embeds each document it is given), and whether
the "already loaded" message was reported. -/
structure LoadResult where
  store : VectorStore
  embedCalls : Nat
  reusedExisting : Bool
deriving DecidableEq, Repr

/-- Embedding of `_load_knowledge_base` (`sql_rag_hybrid.py:347-373`): if
`collection.count() > 0` it prints the reuse message and returns
without touching the store; otherwise it collects the knowledge
entries and hands all of them to `collection.add`, which embeds each
document. -/
def load_knowledge_base (store : VectorStore) (knowledge : List KnowledgeItem) :
    LoadResult :=
  if store.items.length > 0 then
    { store := store, embedCalls := 0, reusedExisting := true }
  else
    { store := { items := knowledge }, embedCalls := knowledge.length,
      reusedExisting := false }

/-- Ranking order of the vector search on items tagged with their
insertion index: strictly smaller distance first, ties by insertion
index. -/
def lexLe (dist : KnowledgeItem → Nat) (a b : Nat × KnowledgeItem) : Prop :=
  dist a.2 < dist b.2 ∨ (dist a.2 = dist b.2 ∧ a.1 ≤ b.1)

instance (dist : KnowledgeItem → Nat) : DecidableRel (lexLe dist) := by
  intro a b
  unfold lexLe
  infer_instance

instance (dist : KnowledgeItem → Nat) : IsTotal (Nat × KnowledgeItem) (lexLe dist) := by
  constructor
  intro a b
  unfold lexLe
  omega

instance (dist : KnowledgeItem → Nat) : IsTrans (Nat × KnowledgeItem) (lexLe dist) := by
  constructor
  intro a b c hab hbc
  unfold lexLe at hab hbc ⊢
  omega

/-- Modelled from the spec: the ChromaDB `collection.query` call made
by `_search_knowledge` (`sql_rag_hybrid.py:394-397`) is an external
dependency whose code is not part of this repository.  Per the spec it
returns the `k` stored items nearest to the query embedding "ordered
by descending similarity (ascending distance). Ties broken by original
knowledge-item insertion order (stable sort)".  The query embedding is
abstracted into the per-item distance function `dist`. -/
def collectionQuery (dist : KnowledgeItem → Nat) (store : VectorStore) (k : Nat) :
    List (Nat × KnowledgeItem) :=
  (store.items.enum.insertionSort (lexLe dist)).take k

/-- Embedding of `_search_knowledge` (`sql_rag_hybrid.py:375-409`): run the
collection query, then repackage each returned document as a dict of
content and distance.  The Python body contains no raise statement and
no store-population check. -/
def searchKnowledge (dist : KnowledgeItem → Nat) (store : VectorStore) (k : Nat) :
    List RetrievedItem :=
  (collectionQuery dist store k).map (fun p => { content := p.2.content, distance := dist p.2 })

/-- The error the spec assigns to searching an unloaded store.  No
such class exists anywhere in the repository; it appears here only so
that success and this failure mode are distinguishable in statements. -/
inductive StoreError where
  | storeNotLoaded
deriving DecidableEq, Repr

/-- A run of `_search_knowledge` as seen by its caller: the Python
function always returns normally (there is no raise and no guard on
the store), so the run result is always `Except.ok`. -/
def search_knowledge_run (dist : KnowledgeItem → Nat) (store : VectorStore) (k : Nat) :
    Except StoreError (List RetrievedItem) :=
  Except.ok (searchKnowledge dist store k)

/-! ### Prompt composition and SQL generation -/

/-- The fixed instruction suffix of the generation prompt
(`sql_rag_hybrid.py:440-442`). -/
def instructionSuffix : String :=
  "Using the database schema and relevant knowledge above, generate a PostgreSQL query to answer this question.\nReturn ONLY the SQL query, no explanations or markdown formatting.\nMake sure to follow any business rules mentioned in the knowledge."

/-- Embedding of `knowledge_context` (`sql_rag_hybrid.py:430-432`): the labeled
block header followed by one numbered line per retrieved item,
enumerated from 1, showing only the content. -/
def knowledgeContext (knowledge : List RetrievedItem) : String :=
  knowledge.enum.foldl
    (fun acc p => acc ++ "\n" ++ toString (p.1 + 1) ++ ". " ++ p.2.content ++ "\n")
    "\n\nRELEVANT KNOWLEDGE:\n"

/-- The prompt f-string of `generate_sql` (`sql_rag_hybrid.py:435-442`):
schema, knowledge block, user question, instruction suffix.  The
function has no conversation-history parameter in the source. -/
def buildPrompt (schema : String) (knowledge : List RetrievedItem) (q : String) : String :=
  schema ++ "\n" ++ knowledgeContext knowledge ++ "\n\nUSER QUESTION: " ++ q ++ "\n\n" ++
    instructionSuffix

/-- The markdown cleanup of `generate_sql` (`sql_rag_hybrid.py:457-460`),
applied to the already-stripped raw model output: a language-tagged
leading fence removes every occurrence of the tagged marker and then
of the bare marker; a bare leading fence removes every occurrence of
the bare marker; otherwise the text is untouched. -/
def cleanFences (s : String) : String :=
  if pyStartsWith "```sql" s then
    pyStrip (pyRemoveAll "```" (pyRemoveAll "```sql" s))
  else if pyStartsWith "```" s then
    pyStrip (pyRemoveAll "```" s)
  else s

/-- Lines 454-460 of `sql_rag_hybrid.py`: the raw generation output is
stripped and then fence-cleaned. -/
def postProcess (raw : String) : String :=
  cleanFences (pyStrip raw)

/-- Embedding of `generate_sql` (`sql_rag_hybrid.py:411-468`) with the knowledge
already retrieved: the generation service is the oracle `gen`; on
success the cleaned SQL and the retrieved knowledge are returned, on
failure the wrapped error message is raised. -/
def generate_sql (gen : String → Except String String) (schema : String)
    (knowledge : List RetrievedItem) (q : String) :
    Except String (String × List RetrievedItem) :=
  match gen (buildPrompt schema knowledge q) with
  | Except.ok raw => Except.ok (postProcess raw, knowledge)
  | Except.error e => Except.error ("Error generating SQL: " ++ e)

/-! ### Query execution -/

/-- What a successful `cursor.execute` leaves on the cursor: the
result descriptor when the statement produced a result set (`None`
for plain data-modifying statements), and the rows a fetch would
return.  Per the psycopg2 driver contract, `cursor.fetchall()` raises
`ProgrammingError: no results to fetch` when the descriptor is
`None`; that behaviour of the external driver is modelled explicitly
in `execute_sql` below. -/
structure QueryOutput where
  description : Option (List String)
  rows : List (List String)
deriving DecidableEq, Repr

/-- Observable operations `execute_sql` sends to the relational
store. -/
inductive DbEvent where
  | connect
  | execute (q : String)
  | fetchAll
  | close
  | commit
deriving DecidableEq, Repr

/-- Embedding of `execute_sql` (`sql_rag_hybrid.py:470-494`) with the relational
store as the oracle `db` deciding the `cursor.execute` step
(connection acquisition is modelled as succeeding; its own failure
would open no connection).  The trace records, in order, the
operations sent to the store.  Paths of the Python code:
when execution raises, control jumps to the `except` clause, which
re-raises the wrapped error without closing; when execution succeeds
but the statement produced no result set (`cursor.description` is
`None`, so `columns = []`), the subsequent `cursor.fetchall()` raises
`no results to fetch` and control likewise jumps to `except` without
closing; only when a result set exists does the code fetch the rows,
close the connection and return.  Nowhere in the function is a
`commit` issued. -/
def execute_sql (db : String → Except String QueryOutput) (q : String) :
    Except String ResultSet × List DbEvent :=
  match db q with
  | Except.ok out =>
    match out.description with
    | some cols =>
      (Except.ok { columns := cols, rows := out.rows, row_count := out.rows.length },
       [DbEvent.connect, DbEvent.execute q, DbEvent.fetchAll, DbEvent.close])
    | none =>
      (Except.error "Error executing SQL: no results to fetch",
       [DbEvent.connect, DbEvent.execute q, DbEvent.fetchAll])
  | Except.error e =>
    (Except.error ("Error executing SQL: " ++ e),
     [DbEvent.connect, DbEvent.execute q])

/-! ### Result explanation and answer selection -/

/-- The `results_text` block of `explain_results`
(`sql_rag_hybrid.py:516-522`): columns, row count, and when rows exist
a sample of at most the first 10 rows. -/
def resultsText (res : ResultSet) : String :=
  "Columns: " ++ joinSep ", " res.columns ++ "\nRow count: " ++ toString res.row_count ++
    "\n\n" ++
    (if res.row_count > 0 then
      (res.rows.take 10).enum.foldl
        (fun acc p => acc ++ "Row " ++ toString (p.1 + 1) ++ ": " ++ toString p.2 ++ "\n")
        "Sample data:\n"
    else "")

/-- The explanation prompt of `explain_results`
(`sql_rag_hybrid.py:524-532`). -/
def explainPrompt (q sqlq : String) (res : ResultSet) : String :=
  "The user asked: \"" ++ q ++ "\"\n\nThe SQL query generated was:\n" ++ sqlq ++
    "\n\nThe results are:\n" ++ resultsText res ++
    "\n\nProvide a clear, concise natural language answer to the user\x27s question based on these results. Be specific with numbers and details."

/-- Embedding of `explain_results` (`sql_rag_hybrid.py:514-546`): the generation
call is the oracle `gen`; a successful response is stripped and
returned, and any failure is absorbed into a fallback string that
embeds the error message — the function always returns a `String`,
never propagating an exception. -/
def explain_results (gen : String → Except String String) (q sqlq : String)
    (res : ResultSet) : String :=
  match gen (explainPrompt q sqlq res) with
  | Except.ok t => pyStrip t
  | Except.error e => "Error generating explanation: " ++ e

/-- The fixed message substituted by the chat handler when a query
returns no rows (`app_hybrid.py:529`). -/
def noResultsMessage : String := "No results found for this query."

/-- The answer selection of the chat input handler
(`app_hybrid.py:521-530`): invoke `explain_results` only when the
result set has rows, otherwise substitute the fixed message.  The
returned flag records whether the explanation call was made. -/
def answerSelection (res : ResultSet) (explainCall : Unit → String) : String × Bool :=
  if res.row_count > 0 then (explainCall (), true) else (noResultsMessage, false)

/-! ### Helper lemmas -/

/-- A string that starts with the tagged fence also starts with the
bare fence. -/
theorem pyStartsWith_bare_of_tagged (s : String) :
    pyStartsWith "```sql" s = true → pyStartsWith "```" s = true := by
  unfold pyStartsWith
  intro h
  rw [List.isPrefixOf_iff_prefix] at h ⊢
  obtain ⟨t, ht⟩ := h
  refine ⟨'s' :: 'q' :: 'l' :: t, ?_⟩
  have hd : "```sql".data = '`' :: '`' :: '`' :: 's' :: 'q' :: 'l' :: [] := rfl
  have hb : "```".data = '`' :: '`' :: '`' :: [] := rfl
  rw [hb]
  rw [hd] at ht
  simpa using ht

/-! ### Claims -/

set_option maxRecDepth 4000

/-- Claim C2: loading the knowledge base when the store already holds
at least one item leaves the store unchanged, embeds zero documents,
and reports that the existing set was reused
(`sql_rag_hybrid.py:347-351`). -/
theorem load_idempotent (store : VectorStore) (knowledge : List KnowledgeItem)
    (h : 0 < store.items.length) :
    load_knowledge_base store knowledge =
      { store := store, embedCalls := 0, reusedExisting := true } := by
  unfold load_knowledge_base
  simp [h]

/-- Witness for C2 at a concrete populated store. -/
theorem load_idempotent_witness :
    load_knowledge_base ⟨[⟨"id1", "c1"⟩]⟩ [⟨"id1", "c1"⟩, ⟨"id2", "c2"⟩] =
      { store := ⟨[⟨"id1", "c1"⟩]⟩, embedCalls := 0, reusedExisting := true } :=
  load_idempotent ⟨[⟨"id1", "c1"⟩]⟩ [⟨"id1", "c1"⟩, ⟨"id2", "c2"⟩] (by decide)

/-- Counterexample to claim C4: the cleanup does not strip only the
leading/trailing wrapper — Python `str.replace` removes every
occurrence, so a fence marker interior to the wrapped text is deleted
as well.  Stripping only the wrapper of this input would give
"SELECT 1; ``` SELECT 2;". -/
theorem fence_cleanup_strips_interior_fences :
    postProcess "```sql\nSELECT 1; ``` SELECT 2;\n```" = "SELECT 1;  SELECT 2;" ∧
    "SELECT 1;  SELECT 2;" ≠ "SELECT 1; ``` SELECT 2;" := by
  constructor
  · decide
  · decide

/-- Amended claim C4: the cleanup yields "SELECT 1;" on the
language-tagged example, handles a bare fence the same way, and leaves
any (stripped) output that does not begin with a fence untouched; when
the output does begin with a fence, every occurrence of the fence
markers is removed, not only the wrapper. -/
theorem fence_cleanup_amended :
    postProcess "```sql\nSELECT 1;\n```" = "SELECT 1;" ∧
    postProcess "```\nSELECT 1;\n```" = "SELECT 1;" ∧
    (∀ s : String, pyStartsWith "```" (pyStrip s) = false → postProcess s = pyStrip s) := by
  refine ⟨by decide, by decide, ?_⟩
  intro s h
  unfold postProcess cleanFences
  have htag : pyStartsWith "```sql" (pyStrip s) = false := by
    cases htag : pyStartsWith "```sql" (pyStrip s) with
    | false => rfl
    | true => rw [pyStartsWith_bare_of_tagged _ htag] at h; cases h
  rw [htag, h]
  simp

/-- Witness for the universal part of the amended C4. -/
theorem fence_cleanup_amended_witness :
    postProcess "SELECT 9;" = pyStrip "SELECT 9;" :=
  fence_cleanup_amended.2.2 "SELECT 9;" (by decide)

/-- Claim C3, code evaluation: the prompt `generate_sql` composes
(`sql_rag_hybrid.py:429-442`) is schema, knowledge block, question and
fixed suffix only — the function has no conversation-history input and
no recap of prior turns ever appears, even though the chat handler
passes `conversation_history=` to `query` (`app_hybrid.py:519`). -/
theorem prompt_composed_without_history_recap :
    buildPrompt "SCHEMA" [{ content := "use completed orders", distance := 3 }]
        "What did I ask before" =
      "SCHEMA\n\n\nRELEVANT KNOWLEDGE:\n\n1. use completed orders\n\n\nUSER QUESTION: What did I ask before\n\n" ++
        instructionSuffix := by
  decide

/-- Counterexample to claim C5: with an empty retrieval result the
composed prompt still contains the labeled knowledge-block header, so
it does not consist of schema, question and suffix only. -/
theorem empty_retrieval_keeps_knowledge_header :
    containsSub (buildPrompt "SCHEMA" [] "How many users") "RELEVANT KNOWLEDGE:" = true ∧
    buildPrompt "SCHEMA" [] "How many users" ≠
      "SCHEMA" ++ "\n\nUSER QUESTION: " ++ "How many users" ++ "\n\n" ++ instructionSuffix := by
  constructor
  · decide
  · decide

/-- Amended claim C5: with an empty retrieval result the pipeline step
still completes successfully, and the prompt is schema, the labeled
knowledge header with no items under it, the question, and the fixed
suffix. -/
theorem empty_retrieval_amended (schema q : String) (gen : String → Except String String)
    (r : String) (h : gen (buildPrompt schema [] q) = Except.ok r) :
    generate_sql gen schema [] q = Except.ok (postProcess r, []) ∧
    buildPrompt schema [] q =
      schema ++ "\n" ++ "\n\nRELEVANT KNOWLEDGE:\n" ++ "\n\nUSER QUESTION: " ++ q ++ "\n\n" ++
        instructionSuffix := by
  refine ⟨?_, rfl⟩
  unfold generate_sql
  rw [h]

/-- Witness for the amended C5 at a concrete schema, question and
generation oracle. -/
theorem empty_retrieval_amended_witness :
    generate_sql (fun _ => Except.ok "SELECT 1;") "S" [] "Q" =
      Except.ok (postProcess "SELECT 1;", []) ∧
    buildPrompt "S" [] "Q" =
      "S" ++ "\n" ++ "\n\nRELEVANT KNOWLEDGE:\n" ++ "\n\nUSER QUESTION: " ++ "Q" ++ "\n\n" ++
        instructionSuffix :=
  empty_retrieval_amended "S" "Q" (fun _ => Except.ok "SELECT 1;") "SELECT 1;" rfl

/-- Counterexample to claim C6: searching before any load (empty
store) does not fail with the store-not-loaded error — it succeeds
with an empty result list. -/
theorem search_before_load_returns_empty_ok :
    search_knowledge_run (fun _ => 0) ⟨[]⟩ 5 = Except.ok [] ∧
    search_knowledge_run (fun _ => 0) ⟨[]⟩ 5 ≠ Except.error StoreError.storeNotLoaded := by
  constructor
  · rfl
  · intro h
    rw [search_knowledge_run] at h
    cases h

/-- Amended claim C6: invoking the knowledge search before load has
populated the store raises nothing (no `StoreNotLoadedError` exists in
the code) and returns an empty retrieval result, for every query
distance function and every requested `k`. -/
theorem search_unloaded_store_amended (dist : KnowledgeItem → Nat) (k : Nat) :
    search_knowledge_run dist ⟨[]⟩ k = Except.ok [] := by
  unfold search_knowledge_run searchKnowledge collectionQuery
  simp

/-- Claim C7: when the executed query returned zero rows, the chat
handler never invokes the answer synthesizer and substitutes the fixed
no-results message (`app_hybrid.py:521-530`). -/
theorem no_results_skips_synthesizer (res : ResultSet) (explainCall : Unit → String)
    (h : res.row_count = 0) :
    answerSelection res explainCall = (noResultsMessage, false) := by
  unfold answerSelection
  simp [h]

/-- Witness for C7 at a concrete empty result set. -/
theorem no_results_skips_synthesizer_witness :
    answerSelection ⟨["c"], [], 0⟩ (fun _ => "explained") = (noResultsMessage, false) :=
  no_results_skips_synthesizer ⟨["c"], [], 0⟩ (fun _ => "explained") rfl

/-- Claim C8: if the generation call inside `explain_results` fails
with any error, the function returns the fallback string embedding the
error message instead of propagating the failure
(`sql_rag_hybrid.py:545-546`). -/
theorem explain_results_absorbs_failure (gen : String → Except String String)
    (q sqlq : String) (res : ResultSet) (e : String)
    (h : gen (explainPrompt q sqlq res) = Except.error e) :
    explain_results gen q sqlq res = "Error generating explanation: " ++ e := by
  unfold explain_results
  rw [h]

/-- Witness for C8 at a concrete failing generation oracle. -/
theorem explain_results_absorbs_failure_witness :
    explain_results (fun _ => Except.error "service down") "Q" "SELECT 1" ⟨[], [], 0⟩ =
      "Error generating explanation: " ++ "service down" :=
  explain_results_absorbs_failure (fun _ => Except.error "service down") "Q" "SELECT 1"
    ⟨[], [], 0⟩ "service down" rfl

/-- Counterexample to claim C9: when executing the query raises a
database error, control jumps to the `except` clause and the opened
connection is never closed — `close` is absent from the trace of that
run. -/
theorem execute_error_path_skips_close :
    (execute_sql (fun _ => Except.error "relation t does not exist") "SELEC 1").2 =
      [DbEvent.connect, DbEvent.execute "SELEC 1"] ∧
    DbEvent.close ∉ (execute_sql (fun _ => Except.error "relation t does not exist") "SELEC 1").2 := by
  constructor
  · rfl
  · decide

/-- Amended claim C9: `execute_sql` closes its connection only on the
path that runs to completion (a statement returning a result set,
whose rows are fetched); on the path where execution raises, and
likewise on the path where the statement produced no result set and
the fetch raises, the connection it opened is not closed. -/
theorem execute_sql_close_amended (db : String → Except String QueryOutput) (q : String) :
    (∀ out cols, db q = Except.ok out → out.description = some cols →
      (execute_sql db q).2 =
        [DbEvent.connect, DbEvent.execute q, DbEvent.fetchAll, DbEvent.close]) ∧
    (∀ out, db q = Except.ok out → out.description = none →
      DbEvent.close ∉ (execute_sql db q).2) ∧
    (∀ e, db q = Except.error e → DbEvent.close ∉ (execute_sql db q).2) := by
  refine ⟨?_, ?_, ?_⟩
  · intro out cols h hd
    simp [execute_sql, h, hd]
  · intro out h hd
    simp [execute_sql, h, hd]
  · intro e h
    simp [execute_sql, h]

/-- Witness for the amended C9 on the completed path. -/
theorem execute_sql_close_amended_witness :
    (execute_sql (fun _ => Except.ok ⟨some ["c"], [["1"]]⟩) "SELECT 1").2 =
      [DbEvent.connect, DbEvent.execute "SELECT 1", DbEvent.fetchAll, DbEvent.close] :=
  (execute_sql_close_amended (fun _ => Except.ok ⟨some ["c"], [["1"]]⟩) "SELECT 1").1
    ⟨some ["c"], [["1"]]⟩ ["c"] rfl rfl

/-- Counterexample to claim C10: for a data-modifying statement the
claimed sequence connect, execute, read, close does not occur — the
statement produces no result set, so the fetch raises
`no results to fetch` and the run ends after the failed fetch with no
close.  No commit occurs either, but the claimed sequence is false. -/
theorem dml_run_ends_at_failed_fetch :
    (execute_sql (fun _ => Except.ok ⟨none, []⟩) "DELETE FROM orders").2 =
      [DbEvent.connect, DbEvent.execute "DELETE FROM orders", DbEvent.fetchAll] ∧
    DbEvent.close ∉ (execute_sql (fun _ => Except.ok ⟨none, []⟩) "DELETE FROM orders").2 ∧
    (execute_sql (fun _ => Except.ok ⟨none, []⟩) "DELETE FROM orders").1 =
      Except.error "Error executing SQL: no results to fetch" := by
  refine ⟨rfl, ?_, rfl⟩
  decide

/-- Amended claim C10: `execute_sql` never issues a commit on any
path, for every query text and store behaviour — including
data-modifying statements — so it never commits changes to the store;
however, the sequence connect, execute, read, close occurs only for
statements that return a result set, while a data-modifying statement
ends with a failed fetch (`no results to fetch`) and no close. -/
theorem execute_sql_never_commits (db : String → Except String QueryOutput) (q : String) :
    DbEvent.commit ∉ (execute_sql db q).2 ∧
    (∀ out cols, db q = Except.ok out → out.description = some cols →
      (execute_sql db q).2 =
        [DbEvent.connect, DbEvent.execute q, DbEvent.fetchAll, DbEvent.close]) ∧
    (∀ out, db q = Except.ok out → out.description = none →
      (execute_sql db q).2 = [DbEvent.connect, DbEvent.execute q, DbEvent.fetchAll]) := by
  refine ⟨?_, ?_, ?_⟩
  · unfold execute_sql
    cases hdb : db q with
    | error e => simp
    | ok out => cases hd : out.description <;> simp [hd]
  · intro out cols h hd
    simp [execute_sql, h, hd]
  · intro out h hd
    simp [execute_sql, h, hd]

/-- Witness for the amended C10 at a concrete data-modifying
statement: no commit, and the run ends at the failed fetch. -/
theorem execute_sql_never_commits_witness :
    DbEvent.commit ∉ (execute_sql (fun _ => Except.ok ⟨none, []⟩) "UPDATE orders SET status = 1").2 ∧
    (execute_sql (fun _ => Except.ok ⟨none, []⟩) "UPDATE orders SET status = 1").2 =
      [DbEvent.connect, DbEvent.execute "UPDATE orders SET status = 1", DbEvent.fetchAll] :=
  ⟨(execute_sql_never_commits (fun _ => Except.ok ⟨none, []⟩) "UPDATE orders SET status = 1").1,
   (execute_sql_never_commits (fun _ => Except.ok ⟨none, []⟩) "UPDATE orders SET status = 1").2.2
     ⟨none, []⟩ rfl rfl⟩

/-- Claim C1: on any populated store and any `k ≥ 1`, the knowledge
search returns at most `k` items, ordered by non-decreasing distance;
if the stored ids are distinct then the returned items carry no
duplicate id; and distance ties stand in insertion-index order. -/
theorem knowledge_search_ranked (dist : KnowledgeItem → Nat) (store : VectorStore) (k : Nat)
    (hne : store.items ≠ []) (hk : 1 ≤ k) :
    (searchKnowledge dist store k).length ≤ k ∧
    List.Pairwise (fun a b : RetrievedItem => a.distance ≤ b.distance)
      (searchKnowledge dist store k) ∧
    ((store.items.map KnowledgeItem.id).Nodup →
      ((collectionQuery dist store k).map (fun p => p.2.id)).Nodup) ∧
    List.Pairwise (fun a b : Nat × KnowledgeItem => dist a.2 = dist b.2 → a.1 < b.1)
      (collectionQuery dist store k) := by
  have hperm : List.Perm (store.items.enum.insertionSort (lexLe dist)) store.items.enum :=
    List.perm_insertionSort _ _
  have hsorted : List.Pairwise (lexLe dist) (store.items.enum.insertionSort (lexLe dist)) :=
    List.sorted_insertionSort _ _
  have hfst : ((store.items.enum.insertionSort (lexLe dist)).map Prod.fst).Nodup := by
    refine ((hperm.map Prod.fst).nodup_iff).mpr ?_
    rw [List.enum_map_fst]
    exact List.nodup_range _
  have hpne : List.Pairwise (fun a b : Nat × KnowledgeItem => a.1 ≠ b.1)
      (store.items.enum.insertionSort (lexLe dist)) :=
    List.pairwise_map.mp hfst
  have htake : List.Pairwise (lexLe dist) (collectionQuery dist store k) :=
    List.Pairwise.sublist (List.take_sublist _ _) hsorted
  refine ⟨?_, ?_, ?_, ?_⟩
  · unfold searchKnowledge collectionQuery
    rw [List.length_map]
    exact List.length_take_le _ _
  · unfold searchKnowledge
    refine List.pairwise_map.mpr (htake.imp ?_)
    intro a b hab
    show dist a.2 ≤ dist b.2
    rcases hab with h | ⟨h, _⟩ <;> omega
  · intro h
    have hmap : (collectionQuery dist store k).map (fun p => p.2.id) =
        ((store.items.enum.insertionSort (lexLe dist)).map (fun p => p.2.id)).take k := by
      unfold collectionQuery
      rw [List.map_take]
    rw [hmap]
    refine List.Pairwise.sublist (List.take_sublist _ _) ?_
    refine ((hperm.map (fun p => p.2.id)).nodup_iff).mpr ?_
    have hsnd : store.items.enum.map (fun p : Nat × KnowledgeItem => p.2.id) =
        store.items.map KnowledgeItem.id := by
      rw [show (fun p : Nat × KnowledgeItem => p.2.id) = KnowledgeItem.id ∘ Prod.snd from rfl,
        ← List.map_map, List.enum_map_snd]
    rw [hsnd]
    exact h
  · refine List.Pairwise.sublist (List.take_sublist _ _) ?_
    refine (hsorted.and hpne).imp ?_
    intro a b hab heq
    rcases hab with ⟨hlex, hne1⟩
    rcases hlex with h | ⟨h1, h2⟩ <;> omega

/-- Witness for C1 at a concrete two-item store and `k = 1`. -/
theorem knowledge_search_ranked_witness :
    (searchKnowledge (fun it => it.content.length) ⟨[⟨"a", "alpha"⟩, ⟨"b", "xy"⟩]⟩ 1).length ≤ 1 ∧
    List.Pairwise (fun a b : RetrievedItem => a.distance ≤ b.distance)
      (searchKnowledge (fun it => it.content.length) ⟨[⟨"a", "alpha"⟩, ⟨"b", "xy"⟩]⟩ 1) ∧
    (((⟨[⟨"a", "alpha"⟩, ⟨"b", "xy"⟩]⟩ : VectorStore).items.map KnowledgeItem.id).Nodup →
      ((collectionQuery (fun it => it.content.length) ⟨[⟨"a", "alpha"⟩, ⟨"b", "xy"⟩]⟩ 1).map
        (fun p => p.2.id)).Nodup) ∧
    List.Pairwise (fun a b : Nat × KnowledgeItem => a.2.content.length = b.2.content.length → a.1 < b.1)
      (collectionQuery (fun it => it.content.length) ⟨[⟨"a", "alpha"⟩, ⟨"b", "xy"⟩]⟩ 1) :=
  knowledge_search_ranked (fun it => it.content.length) ⟨[⟨"a", "alpha"⟩, ⟨"b", "xy"⟩]⟩ 1
    (by decide) (by decide)

end HybridSqlRag
